import Mathlib

/-!
Verification of the derivative/asset loading core of the dpo-voyager
repository (Smithsonian Voyager 3D viewer), shallowly embedded in Lean 4.

The embedding covers:
* the `Asset` / `Derivative` model and its operations
  (constructor, `load`, `addAsset`, `toData`, `dispose`);
* the private three.js `LoadingManager` adapter of `CVAssetLoader`
  and its four lifecycle callbacks driving the boolean `loading` output;
* the `CVScene` aggregate model bounding box maintenance;
* the persisted-enumeration string lookups of `CVReader.fromData` and
  `CVScene.fromDocument`.

Promises are embedded as `Except String` values (resolve / reject);
the single-threaded mutation of the TypeScript classes is embedded as
explicit state passing.  GPU resource release calls are recorded as an
explicit event list so that disposal behaviour is observable.
-/

deriving instance DecidableEq for Except

namespace Voyager

/-- Asset types, from `Asset.ts` (enum `EAssetType`). -/
inductive EAssetType where
  | Model
  | Geometry
  | Image
  | Texture
deriving DecidableEq, BEq, Repr

/-- Texture map channels, from `Asset.ts` (enum `EMapType`). -/
inductive EMapType where
  | Color
  | Occlusion
  | Emissive
  | MetallicRoughness
  | Normal
deriving DecidableEq, BEq, Repr

/-- Persisted asset data (`IAsset` of `common/types/item`):
uri, type, and an optional map type for texture assets. -/
structure IAsset where
  uri : String
  type : EAssetType
  mapType : Option EMapType
deriving DecidableEq, Repr

/-- Modelled from the spec: the `Asset` class is imported from `./Asset`,
which is not part of the excerpt.  Per the data-model section it is a
single addressable resource reference holding uri, type and map-type,
immutable once constructed from source data. -/
structure Asset where
  uri : String
  type : EAssetType
  mapType : Option EMapType
deriving DecidableEq, Repr

/-- Modelled from the spec: construction of an `Asset` from persisted data
(`new Asset(data)`); the spec says it round-trips losslessly. -/
def Asset.fromData (d : IAsset) : Asset :=
  { uri := d.uri, type := d.type, mapType := d.mapType }

/-- Modelled from the spec: `Asset.toData()`, serializing back to the same
shape it was constructed from (lossless round-trip per the spec). -/
def Asset.toDataFn (a : Asset) : IAsset :=
  { uri := a.uri, type := a.type, mapType := a.mapType }

/-- Modelled from the spec: `new Asset()` with no argument, an empty asset
reference whose fields are subsequently assigned (used by `addAsset`).
The uri and type fields are always overwritten by `addAsset`; the map
type default is absent. -/
def Asset.emptyAsset : Asset :=
  { uri := "", type := EAssetType.Model, mapType := none }

/-- Derivative usage axis, from the source:
`export enum EDerivativeUsage { Web, Print, Editorial }`. -/
inductive EDerivativeUsage where
  | Web
  | Print
  | Editorial
deriving DecidableEq, Repr

/-- Derivative quality axis, from the source:
`export enum EDerivativeQuality { Thumb, Low, Medium, High, Highest, LOD, Stream }`. -/
inductive EDerivativeQuality where
  | Thumb
  | Low
  | Medium
  | High
  | Highest
  | LOD
  | Stream
deriving DecidableEq, Repr

/-- The TypeScript reverse enum mapping `EDerivativeUsage[u]`. -/
def EDerivativeUsage.toName : EDerivativeUsage → String
  | .Web => "Web"
  | .Print => "Print"
  | .Editorial => "Editorial"

/-- The TypeScript reverse enum mapping `EDerivativeQuality[q]`. -/
def EDerivativeQuality.toName : EDerivativeQuality → String
  | .Thumb => "Thumb"
  | .Low => "Low"
  | .Medium => "Medium"
  | .High => "High"
  | .Highest => "Highest"
  | .LOD => "LOD"
  | .Stream => "Stream"

/-- The member names of `EDerivativeUsage` in declaration (index) order. -/
def usageNames : List String := ["Web", "Print", "Editorial"]

/-- The member names of `EDerivativeQuality` in declaration (index) order. -/
def qualityNames : List String := ["Thumb", "Low", "Medium", "High", "Highest", "LOD", "Stream"]

/-- The TypeScript forward enum lookup `EnumObject[s]`: the index of the
member named `s`, or `undefined` (here `none`) for an unknown name. -/
def enumIndexOf : List String → String → Option Nat
  | [], _ => none
  | n :: rest, s => if n = s then some 0 else (enumIndexOf rest s).map (· + 1)

/-- JavaScript `x || d` on an optional number: the number when present and
nonzero (truthy), otherwise the default. -/
def jsOrNat (x : Option Nat) (d : Nat) : Nat :=
  match x with
  | some n => if n = 0 then d else n
  | none => d

/-- Member of `EDerivativeUsage` at a given index (index 0 is `Web`). -/
def EDerivativeUsage.ofIndex : Nat → EDerivativeUsage
  | 0 => .Web
  | 1 => .Print
  | 2 => .Editorial
  | _ => .Web

/-- Member of `EDerivativeQuality` at a given index (index 0 is `Thumb`). -/
def EDerivativeQuality.ofIndex : Nat → EDerivativeQuality
  | 0 => .Thumb
  | 1 => .Low
  | 2 => .Medium
  | 3 => .High
  | 4 => .Highest
  | 5 => .LOD
  | 6 => .Stream
  | _ => .Thumb

/-- Modelled from the spec: reading a persisted usage string
(`EDerivativeUsage[s] || 0`); the call site converting persisted strings
to enum indices is not in the excerpt.  Unknown strings default to
index 0 (`Web`) per the external-interface section of the spec. -/
def EDerivativeUsage.fromName (s : String) : EDerivativeUsage :=
  EDerivativeUsage.ofIndex (jsOrNat (enumIndexOf usageNames s) 0)

/-- Modelled from the spec: reading a persisted quality string
(`EDerivativeQuality[s] || 0`); unknown strings default to index 0
(`Thumb`). -/
def EDerivativeQuality.fromName (s : String) : EDerivativeQuality :=
  EDerivativeQuality.ofIndex (jsOrNat (enumIndexOf qualityNames s) 0)

/-- A point of three.js space; coordinates are embedded as integers. -/
abbrev Pt := Int × Int × Int

/-- Componentwise minimum of two points. -/
def ptMin (a b : Pt) : Pt := (min a.1 b.1, min a.2.1 b.2.1, min a.2.2 b.2.2)

/-- Componentwise maximum of two points. -/
def ptMax (a b : Pt) : Pt := (max a.1 b.1, max a.2.1 b.2.1, max a.2.2 b.2.2)

/-- `THREE.Box3`: an axis-aligned box; `none` is the empty box
(`makeEmpty`, min = +inf / max = -inf in three.js). -/
abbrev Box3 := Option (Pt × Pt)

/-- The empty box (`new THREE.Box3()` / `box.makeEmpty()`). -/
def Box3.emptyBox : Box3 := none

/-- `THREE.Box3.union`: componentwise min of minima and max of maxima;
the empty box is the neutral element. -/
def Box3.union : Box3 → Box3 → Box3
  | none, b => b
  | some a, none => some a
  | some (mn1, mx1), some (mn2, mx2) => some (ptMin mn1 mn2, ptMax mx1 mx2)

/-- A texture resource, identified by a numeric id. -/
abbrev Texture := Nat

/-- A geometry resource: an id (for release tracking) and its bounds. -/
structure Geometry where
  gid : Nat
  box : Box3
deriving DecidableEq, Repr

/-- An exact scalar constant, embedded as a numerator / denominator pair
of integers (the source uses floating point constants 0.5 and 0.8). -/
abbrev Scalar := Int × Int

/-- The `UberMaterial` physically-based material: six named texture map
slots, a grey scalar color and roughness / metalness constants. -/
structure UberMaterial where
  map : Option Texture := none
  aoMap : Option Texture := none
  emissiveMap : Option Texture := none
  metalnessMap : Option Texture := none
  roughnessMap : Option Texture := none
  normalMap : Option Texture := none
  color : Scalar := (1, 1)
  roughness : Scalar := (1, 1)
  metalness : Scalar := (0, 1)
deriving DecidableEq, Repr

/-- A `THREE.Mesh`: geometry plus material. -/
structure Mesh where
  geometry : Geometry
  material : UberMaterial
deriving DecidableEq, Repr

/-- A loaded `THREE.Object3D`: overall bounds (as computed by
`expandByObject`) and the meshes visited by `traverse`. -/
structure Object3D where
  box : Box3
  meshes : List Mesh
deriving DecidableEq, Repr

/-- Persisted derivative data (`IDerivative` of `common/types/item`). -/
structure IDerivative where
  usage : String
  quality : String
  assets : List IAsset
deriving DecidableEq, Repr

/-- The `Derivative` class state: id, usage, quality, ordered asset list,
the loaded model (null until loaded) and the bounding box. -/
structure Derivative where
  id : String
  usage : EDerivativeUsage
  quality : EDerivativeQuality
  assets : List Asset
  model : Option Object3D
  boundingBox : Box3
deriving DecidableEq, Repr

/-- The `Derivative` constructor.  The `assetData` parameter is declared
optional in the source but is dereferenced unconditionally
(`assetData.map(...)`), so passing `undefined` (here `none`) throws a
TypeError; the embedding returns `none` in that case. -/
def Derivative.construct (usage : EDerivativeUsage) (quality : EDerivativeQuality)
    (assetData : Option (List IAsset)) : Option Derivative :=
  match assetData with
  | none => none
  | some data =>
    some { id := ""
           usage := usage
           quality := quality
           assets := data.map Asset.fromData
           model := none
           boundingBox := Box3.emptyBox }

/-- Modelled from the spec: a derivative is created from persisted item
data at document-load time; the call site is not in the excerpt.  The
usage and quality strings are parsed by the enum lookup (unknown names
default to index 0) and the assets by their own construction. -/
def Derivative.fromData (dd : IDerivative) : Derivative :=
  { id := ""
    usage := EDerivativeUsage.fromName dd.usage
    quality := EDerivativeQuality.fromName dd.quality
    assets := dd.assets.map Asset.fromData
    model := none
    boundingBox := Box3.emptyBox }

/-- `Derivative.toData()`: usage and quality serialized by the reverse
enum mapping, assets by their own serialization. -/
def Derivative.toData (d : Derivative) : IDerivative :=
  { usage := d.usage.toName
    quality := d.quality.toName
    assets := d.assets.map Asset.toDataFn }

/-- `Derivative.findAsset(type)`: the first asset of the given type. -/
def Derivative.findAsset (d : Derivative) (t : EAssetType) : Option Asset :=
  d.assets.find? (fun a => a.type == t)

/-- `Derivative.findAssets(type)`: all assets of the given type, in order. -/
def Derivative.findAssets (d : Derivative) (t : EAssetType) : List Asset :=
  d.assets.filter (fun a => a.type == t)

/-- `Derivative.addAsset(uri, type, mapType?)`.  The result is the
post-state of the object together with the thrown error message, if any:
an empty uri throws before any mutation, otherwise a fresh asset is
assigned its uri and type (the map type only for `Texture` assets with a
map type supplied) and appended to the asset list. -/
def Derivative.addAsset (d : Derivative) (uri : String) (t : EAssetType)
    (mapType : Option EMapType) : Derivative × Option String :=
  if uri = "" then
    (d, some "uri must be specified")
  else
    let a : Asset :=
      { Asset.emptyAsset with
        uri := uri
        type := t
        mapType := if t == EAssetType.Texture && mapType.isSome then mapType
                   else Asset.emptyAsset.mapType }
    ({ d with assets := d.assets ++ [a] }, none)

/-- A load request issued to the loading manager, recorded so that which
loaders a `load()` call delegates to is observable. -/
inductive LoadRequest where
  | modelReq : Asset → LoadRequest
  | geoReq : Asset → LoadRequest
  | texReq : Asset → LoadRequest
deriving DecidableEq, Repr

/-- The `LoadingManager` collaborator as used by `Derivative.load`:
three typed load operations, each an asynchronous request embedded as a
resolved (`ok`) or rejected (`error`) result. -/
structure LoadingManager where
  loadModelFn : Asset → Except String Object3D
  loadGeometryFn : Asset → Except String Geometry
  loadTextureFn : Asset → Except String Texture

/-- `Promise.all` over the concurrently issued texture loads: resolves
with all textures when every load resolves, rejects when any rejects. -/
def allTextures (lm : LoadingManager) : List Asset → Except String (List Texture)
  | [] => Except.ok []
  | a :: rest =>
    match lm.loadTextureFn a, allTextures lm rest with
    | Except.ok t, Except.ok ts => Except.ok (t :: ts)
    | Except.error e, _ => Except.error e
    | Except.ok _, Except.error e => Except.error e

/-- One step of `Derivative.assignTextures`: assign the texture (possibly
`undefined`, as the JavaScript indexing yields past the end of the
texture array) to the material slot selected by the asset map type.
An asset without a map type matches no switch case. -/
def assignOne (a : Asset) (t : Option Texture) (m : UberMaterial) : UberMaterial :=
  match a.mapType with
  | some EMapType.Color => { m with map := t }
  | some EMapType.Occlusion => { m with aoMap := t }
  | some EMapType.Emissive => { m with emissiveMap := t }
  | some EMapType.MetallicRoughness => { m with metalnessMap := t, roughnessMap := t }
  | some EMapType.Normal => { m with normalMap := t }
  | none => m

/-- The loop of `Derivative.assignTextures`, carrying the running index
into the texture array. -/
def assignFrom (assets : List Asset) (textures : List Texture) (i : Nat)
    (m : UberMaterial) : UberMaterial :=
  match assets with
  | [] => m
  | a :: rest => assignFrom rest textures (i + 1) (assignOne a textures[i]? m)

/-- `Derivative.assignTextures(assets, textures, material)`: for each
asset index, assign `textures[i]` into the slot named by the asset. -/
def Derivative.assignTextures (assets : List Asset) (textures : List Texture)
    (m : UberMaterial) : UberMaterial :=
  assignFrom assets textures 0 m

/-- `Derivative.load(loadingManager)`.  The outer `Option` is the
JavaScript return value: `none` when neither a model nor a geometry
asset exists (the function falls off its end, returning `undefined`).
Otherwise the recorded load requests are paired with the promise result.
Model path: delegate to the model loader, store the object, recompute
the bounding box.  Geometry path: delegate to the geometry loader, wrap
the geometry in a mesh with a fresh `UberMaterial`, recompute the
bounding box, then request all image assets concurrently; a rejection of
the joined texture promise is caught and replaced by the empty texture
array.  Textures are then assigned by map type and, if no base color map
ended up assigned, the fallback shading constants are applied. -/
def Derivative.load (d : Derivative) (lm : LoadingManager) :
    Option (List LoadRequest × Except String Derivative) :=
  match d.findAsset EAssetType.Model with
  | some modelAsset =>
    some ([LoadRequest.modelReq modelAsset],
      match lm.loadModelFn modelAsset with
      | Except.ok obj =>
        Except.ok { d with model := some obj, boundingBox := Box3.emptyBox.union obj.box }
      | Except.error err => Except.error err)
  | none =>
    match d.findAsset EAssetType.Geometry with
    | some geoAsset =>
      match lm.loadGeometryFn geoAsset with
      | Except.error err => some ([LoadRequest.geoReq geoAsset], Except.error err)
      | Except.ok geo =>
        let imageAssets := d.findAssets EAssetType.Image
        let textures : List Texture :=
          match allTextures lm imageAssets with
          | Except.ok ts => ts
          | Except.error _ => []
        let mat0 := Derivative.assignTextures imageAssets textures {}
        let mat1 := if mat0.map = none then
            { mat0 with color := ((1, 2) : Scalar), roughness := ((4, 5) : Scalar),
                        metalness := ((0, 1) : Scalar) }
          else mat0
        some ([LoadRequest.geoReq geoAsset] ++ imageAssets.map LoadRequest.texReq,
          Except.ok { d with
            model := some { box := geo.box, meshes := [{ geometry := geo, material := mat1 }] }
            boundingBox := Box3.emptyBox.union geo.box })
    | none => none

/-- The material of the mesh a geometry-path `load()` produced, when the
loaded model holds one. -/
def Derivative.loadedMaterial (d : Derivative) : Option UberMaterial :=
  match d.model with
  | some obj => (obj.meshes.head?).map Mesh.material
  | none => none

/-- All six texture map slots of a material are absent. -/
def UberMaterial.allMapsNone (m : UberMaterial) : Prop :=
  m.map = none ∧ m.aoMap = none ∧ m.emissiveMap = none ∧
  m.metalnessMap = none ∧ m.roughnessMap = none ∧ m.normalMap = none

instance (m : UberMaterial) : Decidable m.allMapsNone := by
  unfold UberMaterial.allMapsNone
  infer_instance

/-- A release call on a GPU-side resource (`dispose()` on a geometry or
texture), recorded as an observable event. -/
inductive ReleaseCall where
  | geometryRelease : Nat → ReleaseCall
  | textureRelease : Texture → ReleaseCall
deriving DecidableEq, Repr

/-- `Derivative.disposeMesh(mesh)`: release the geometry, then each
present material map slot in source order. -/
def Derivative.disposeMesh (mesh : Mesh) : List ReleaseCall :=
  let m := mesh.material
  [ReleaseCall.geometryRelease mesh.geometry.gid]
  ++ (match m.map with | some t => [ReleaseCall.textureRelease t] | none => [])
  ++ (match m.aoMap with | some t => [ReleaseCall.textureRelease t] | none => [])
  ++ (match m.emissiveMap with | some t => [ReleaseCall.textureRelease t] | none => [])
  ++ (match m.metalnessMap with | some t => [ReleaseCall.textureRelease t] | none => [])
  ++ (match m.roughnessMap with | some t => [ReleaseCall.textureRelease t] | none => [])
  ++ (match m.normalMap with | some t => [ReleaseCall.textureRelease t] | none => [])

/-- `Derivative.dispose()`: when a model is present, traverse it and
release every mesh.  The derivative state is returned unchanged: the
source clears neither the model reference nor the material slots. -/
def Derivative.dispose (d : Derivative) : Derivative × List ReleaseCall :=
  match d.model with
  | some obj => (d, (obj.meshes.map Derivative.disposeMesh).flatten)
  | none => (d, [])

/-- The item-level events of the three.js `LoadingManager` driving the
four lifecycle callbacks: a load starting, a load finishing, a load
erroring. -/
inductive ItemEvent where
  | itemStart
  | itemEnd
  | itemError
deriving DecidableEq, Repr

/-- State of `PrivateLoadingManager` together with the `loading` output
of `CVAssetLoader` that its callbacks set. -/
structure ManagerState where
  isLoading : Bool := false
  itemsLoaded : Nat := 0
  itemsTotal : Nat := 0
  loading : Bool := false
deriving DecidableEq, Repr

/-- Modelled from the spec: the three.js `LoadingManager` collaborator
(the LoadingManager adapter of the system overview) tracks the in-flight
load count and fires the start / progress / load-complete / error
callbacks; its own source is external to the excerpt.  `itemStart`
increments the total and fires `onStart` only when not already loading;
`itemEnd` increments the loaded count, fires `onProgress`, and fires
`onLoad` when the queue returns to empty; `itemError` fires `onError`.
The callback bodies are the `PrivateLoadingManager` handlers of
`CVAssetLoader.ts`: `onLoadingStart` sets `loading` true,
`onLoadingProgress` only logs, `onLoadingCompleted` sets `loading`
false, `onLoadingError` sets `loading` false. -/
def stepManager (s : ManagerState) : ItemEvent → ManagerState
  | ItemEvent.itemStart =>
    let s1 := { s with itemsTotal := s.itemsTotal + 1 }
    let s2 := if s1.isLoading then s1 else { s1 with loading := true }
    { s2 with isLoading := true }
  | ItemEvent.itemEnd =>
    let s1 := { s with itemsLoaded := s.itemsLoaded + 1 }
    if s1.itemsLoaded = s1.itemsTotal then
      { s1 with isLoading := false, loading := false }
    else s1
  | ItemEvent.itemError => { s with loading := false }

/-- A reachable manager state: the result of running a sequence of item
events from the initial state. -/
def runTrace (es : List ItemEvent) : ManagerState :=
  es.foldl stepManager {}

/-- A model component (`CVModel2`) as seen by `CVScene`: an id and the
bounds of its `object3D`. -/
structure ModelComp where
  mid : Nat
  box : Box3
deriving DecidableEq, Repr

/-- `CVScene` state: the current member set of model components and the
aggregate model bounding box. -/
structure SceneState where
  models : List ModelComp
  modelBoundingBox : Box3
deriving DecidableEq, Repr

/-- `CVScene.updateModelBoundingBox` recomputation: empty the box, then
expand it by every member model object. -/
def computeModelBoundingBox (models : List ModelComp) : Box3 :=
  models.foldl (fun b m => b.union m.box) Box3.emptyBox

/-- Structural and settings events processed by `CVScene`: a model
component added to the graph, a model component removed, a change of
the unit-of-measure input. -/
inductive SceneEvent where
  | addModel : ModelComp → SceneEvent
  | removeModel : Nat → SceneEvent
  | unitsChanged
deriving DecidableEq, Repr

/-- One `CVScene` reaction step.  Modelled from the spec where the
component-graph bookkeeping is external: the graph has already applied
the structural change when the `onModelComponent` handler runs, so the
member list read by the recomputation reflects it.  On add and remove
the handler calls `updateModelBoundingBox`; on a units change the
`update` pass calls it.  The second component records that the
`bounding-box` change notification was emitted. -/
def sceneStep (s : SceneState) : SceneEvent → SceneState × Bool
  | SceneEvent.addModel m =>
    let ms := s.models ++ [m]
    ({ models := ms, modelBoundingBox := computeModelBoundingBox ms }, true)
  | SceneEvent.removeModel i =>
    let ms := s.models.filter (fun m => m.mid != i)
    ({ models := ms, modelBoundingBox := computeModelBoundingBox ms }, true)
  | SceneEvent.unitsChanged =>
    ({ models := s.models, modelBoundingBox := computeModelBoundingBox s.models }, true)

/-- Modelled from the spec: the member names of `EReaderPosition` (from
`common/types/setup`, external to the excerpt).  The code falls back to
`EReaderPosition.Overlay` and the spec requires the fallback to be
index 0, so `Overlay` is the index 0 member. -/
def readerPositionNames : List String := ["Overlay", "Left", "Right"]

/-- Modelled from the spec: the member names of `EUnitType` (from
`common/types/common`, external to the excerpt). -/
def unitNames : List String := ["mm", "cm", "m", "km", "in", "ft", "yd", "mi"]

/-- Persisted reader data (`IReader` of `common/types/setup`), with
optional fields as read from JSON. -/
structure IReaderData where
  visible : Option Bool
  position : Option String
  url : Option String
deriving DecidableEq, Repr

/-- The reader input state set by `CVReader.fromData`. -/
structure ReaderState where
  visible : Bool
  position : Nat
  url : Option String
deriving DecidableEq, Repr

/-- `CVReader.fromData(data)`: `data || {}`, then
`visible: !!data.visible`,
`position: EReaderPosition[data.position] || EReaderPosition.Overlay`
(`Overlay` has index 0), `url: data.url`. -/
def CVReader.fromData (data : Option IReaderData) : ReaderState :=
  let d := data.getD { visible := none, position := none, url := none }
  { visible := d.visible.getD false
    position := jsOrNat (d.position.bind (enumIndexOf readerPositionNames)) 0
    url := d.url }

/-- `CVScene.fromDocument`: the units input is set to
`EUnitType[scene.units] || 0`. -/
def CVScene.unitsFromDocument (units : String) : Nat :=
  jsOrNat (enumIndexOf unitNames units) 0

/-! Concrete fixtures used by witnesses and counterexamples. -/

/-- An empty derivative fixture. -/
def demoDeriv : Derivative :=
  { id := "", usage := EDerivativeUsage.Web, quality := EDerivativeQuality.Medium,
    assets := [], model := none, boundingBox := Box3.emptyBox }

/-- A model asset fixture. -/
def modelAsset0 : Asset := { uri := "scene.glb", type := EAssetType.Model, mapType := none }

/-- A geometry asset fixture. -/
def geoAsset0 : Asset := { uri := "mesh.ply", type := EAssetType.Geometry, mapType := none }

/-- A base-color image asset fixture. -/
def imgColorAsset : Asset := { uri := "base.jpg", type := EAssetType.Image, mapType := some EMapType.Color }

/-- A normal-map image asset fixture. -/
def imgNormalAsset : Asset := { uri := "normal.jpg", type := EAssetType.Image, mapType := some EMapType.Normal }

/-- A metallic-roughness image asset fixture. -/
def imgMRAsset : Asset := { uri := "mr.jpg", type := EAssetType.Image, mapType := some EMapType.MetallicRoughness }

/-- A loaded object fixture for the model loader. -/
def demoObj : Object3D := { box := some ((0, 0, 0), (2, 2, 2)), meshes := [] }

/-- A geometry resource fixture for the geometry loader. -/
def demoGeo : Geometry := { gid := 5, box := some ((0, 0, 0), (1, 1, 1)) }

/-- A loading manager on which every load resolves. -/
def lmAllOk : LoadingManager :=
  { loadModelFn := fun _ => Except.ok demoObj
    loadGeometryFn := fun _ => Except.ok demoGeo
    loadTextureFn := fun a => if a.uri = "base.jpg" then Except.ok 7 else Except.ok 9 }

/-- A loading manager on which the base-color texture resolves and every
other texture rejects. -/
def lmTexFails : LoadingManager :=
  { loadModelFn := fun _ => Except.error "unused"
    loadGeometryFn := fun _ => Except.ok demoGeo
    loadTextureFn := fun a => if a.uri = "base.jpg" then Except.ok 7 else Except.error "404" }

/-- A derivative with a model, a geometry and an image asset. -/
def derivModelGeoImg : Derivative :=
  { demoDeriv with assets := [modelAsset0, geoAsset0, imgColorAsset] }

/-- A derivative with a geometry asset and two image assets. -/
def derivGeoTwoImgs : Derivative :=
  { demoDeriv with assets := [geoAsset0, imgColorAsset, imgNormalAsset] }

/-- A derivative with a geometry asset and one metallic-roughness image
asset. -/
def derivGeoMR : Derivative :=
  { demoDeriv with assets := [geoAsset0, imgMRAsset] }

/-- The derivative state `derivGeoMR.load lmAllOk` produces: a mesh of the
loaded geometry whose material carries the metallic-roughness texture in
both slots, with the fallback shading constants applied since no base
color map was assigned. -/
def dLoadedMR : Derivative :=
  { derivGeoMR with
    model := some
      { box := demoGeo.box
        meshes := [{ geometry := demoGeo
                     material := { metalnessMap := some 9, roughnessMap := some 9
                                   color := ((1, 2) : Scalar), roughness := ((4, 5) : Scalar)
                                   metalness := ((0, 1) : Scalar) } }] }
    boundingBox := Box3.emptyBox.union demoGeo.box }

/-- A model component fixture for the scene aggregator. -/
def modelComp0 : ModelComp := { mid := 1, box := some ((0, 0, 0), (3, 3, 3)) }

/-- A one-member scene fixture whose aggregate box is current. -/
def sceneOne : SceneState :=
  { models := [modelComp0], modelBoundingBox := computeModelBoundingBox [modelComp0] }

/-- An empty scene fixture. -/
def sceneEmpty : SceneState := { models := [], modelBoundingBox := Box3.emptyBox }

/-- The asset a successful `addAsset(uri, type, mapType)` call appends:
the empty asset with its uri and type assigned, and the map type only
for `Texture` assets with a map type supplied. -/
def addedAsset (uri : String) (t : EAssetType) (mt : Option EMapType) : Asset :=
  { Asset.emptyAsset with
    uri := uri
    type := t
    mapType := if t == EAssetType.Texture && mt.isSome then mt
               else Asset.emptyAsset.mapType }

/-! Helper lemmas shared by the claim theorems. -/

/-- Asset serialization inverts construction from persisted data. -/
theorem Asset.toDataFn_fromData (a : IAsset) : Asset.toDataFn (Asset.fromData a) = a := rfl

/-- Asset serialization inverts construction from persisted data, lifted
to lists. -/
theorem assets_toData_fromData (l : List IAsset) :
    l.map (Asset.toDataFn ∘ Asset.fromData) = l := by
  induction l with
  | nil => rfl
  | cons a rest ih => simp [Function.comp, Asset.toDataFn_fromData, ih]

/-- The enum lookup yields no index for a string that is not a member
name. -/
theorem enumIndexOf_eq_none (l : List String) (s : String) (h : s ∉ l) :
    enumIndexOf l s = none := by
  induction l with
  | nil => rfl
  | cons a rest ih =>
    simp only [List.mem_cons, not_or] at h
    have ha : ¬(a = s) := fun hh => h.1 hh.symm
    simp [enumIndexOf, ha, ih h.2]

/-- Assigning an absent texture keeps every map slot absent. -/
theorem assignOne_none_allMapsNone (a : Asset) (m : UberMaterial)
    (h : m.allMapsNone) : (assignOne a none m).allMapsNone := by
  obtain ⟨h1, h2, h3, h4, h5, h6⟩ := h
  unfold assignOne
  cases hmt : a.mapType with
  | none => exact ⟨h1, h2, h3, h4, h5, h6⟩
  | some mt => cases mt <;> simp_all [UberMaterial.allMapsNone]

/-- Running the assignment loop with an empty texture array keeps every
map slot absent. -/
theorem assignFrom_empty_allMapsNone (assets : List Asset) (i : Nat)
    (m : UberMaterial) (h : m.allMapsNone) :
    (assignFrom assets [] i m).allMapsNone := by
  induction assets generalizing i m with
  | nil => exact h
  | cons a rest ih =>
    have : ([] : List Texture)[i]? = none := by simp
    unfold assignFrom
    rw [this]
    exact ih (i + 1) _ (assignOne_none_allMapsNone a m h)

/-- The empty box is a left unit for box union. -/
theorem Box3.emptyBox_union (b : Box3) : Box3.union Box3.emptyBox b = b := rfl

/-! Claim theorems. -/

/-- C10: The Derivative constructor dereferences its optional assetData
parameter unconditionally, so construction with the parameter omitted or
undefined throws (yields no derivative); every successfully constructed
Derivative has a defined assets array mapped from the data, a null
loaded model and an empty bounding box. -/
theorem derivative_construct_requires_asset_data :
    (∀ u q, Derivative.construct u q none = none) ∧
    (∀ u q data, Derivative.construct u q (some data) =
      some { id := "", usage := u, quality := q, assets := data.map Asset.fromData,
             model := none, boundingBox := Box3.emptyBox }) :=
  ⟨fun _ _ => rfl, fun _ _ _ => rfl⟩

/-- C6: addAsset with an empty uri fails synchronously with the
InvalidArgument-style error and leaves the asset list unchanged; with a
nonempty uri it appends exactly one new asset, carrying that uri and
type, at the end of the list. -/
theorem derivative_addAsset_empty_uri_rejected (d : Derivative) (uri : String)
    (t : EAssetType) (mt : Option EMapType) :
    (uri = "" → d.addAsset uri t mt = (d, some "uri must be specified")) ∧
    (uri ≠ "" → ∃ a : Asset, a.uri = uri ∧ a.type = t ∧
      d.addAsset uri t mt = ({ d with assets := d.assets ++ [a] }, none)) := by
  constructor
  · intro h
    simp [Derivative.addAsset, h]
  · intro h
    refine ⟨addedAsset uri t mt, rfl, rfl, ?_⟩
    simp [Derivative.addAsset, addedAsset, h]

/-- Witness for C6 at a concrete derivative and uri. -/
theorem derivative_addAsset_empty_uri_rejected_witness :
    (demoDeriv.addAsset "" EAssetType.Model none = (demoDeriv, some "uri must be specified")) ∧
    (∃ a : Asset, a.uri = "scene.glb" ∧ a.type = EAssetType.Model ∧
      demoDeriv.addAsset "scene.glb" EAssetType.Model none =
        ({ demoDeriv with assets := demoDeriv.assets ++ [a] }, none)) :=
  ⟨(derivative_addAsset_empty_uri_rejected demoDeriv "" EAssetType.Model none).1 rfl,
   (derivative_addAsset_empty_uri_rejected demoDeriv "scene.glb" EAssetType.Model none).2
     (by decide)⟩

/-- C5: toData applied to a Derivative constructed from persisted data
with usage Editorial and quality High returns exactly usage "Editorial"
and quality "High", with the assets serialized by their own
serialization: toData inverts construction from persisted data. -/
theorem derivative_toData_inverts_fromData (assets : List IAsset) :
    (Derivative.fromData { usage := "Editorial", quality := "High", assets := assets }).toData
      = { usage := "Editorial", quality := "High", assets := assets } := by
  have h1 : (EDerivativeUsage.fromName "Editorial").toName = "Editorial" := by decide
  have h2 : (EDerivativeQuality.fromName "High").toName = "High" := by decide
  simp [Derivative.fromData, Derivative.toData, h1, h2, List.map_map,
    assets_toData_fromData]

/-- C4: When a Model-type asset is present, load delegates exactly one
request, to the model loader with the first Model asset; on resolution
the object is stored as the loaded model, the bounding box is recomputed
from it, and the derivative itself (all other fields unchanged) is the
promise value; no geometry or texture request is ever issued and no
texture assignment occurs in this path. -/
theorem derivative_load_model_path_exclusive (d : Derivative) (lm : LoadingManager)
    (a : Asset) (h : d.findAsset EAssetType.Model = some a) :
    d.load lm = some ([LoadRequest.modelReq a],
      match lm.loadModelFn a with
      | Except.ok obj =>
        Except.ok { d with model := some obj, boundingBox := Box3.emptyBox.union obj.box }
      | Except.error err => Except.error err) := by
  unfold Derivative.load
  rw [h]

/-- Witness for C4: a derivative holding a model, a geometry and an image
asset issues only the model request and stores the loaded object. -/
theorem derivative_load_model_path_exclusive_witness :
    derivModelGeoImg.findAsset EAssetType.Model = some modelAsset0 ∧
    derivModelGeoImg.load lmAllOk = some ([LoadRequest.modelReq modelAsset0],
      Except.ok { derivModelGeoImg with
                  model := some demoObj
                  boundingBox := Box3.emptyBox.union demoObj.box }) := by
  refine ⟨by decide, ?_⟩
  rw [derivative_load_model_path_exclusive derivModelGeoImg lmAllOk modelAsset0 (by decide)]
  rfl

/-- Running the texture assignment with an empty texture array on a fresh
material leaves every map slot absent. -/
theorem assignTextures_empty_allMapsNone (assets : List Asset) :
    (Derivative.assignTextures assets [] {}).allMapsNone :=
  assignFrom_empty_allMapsNone assets 0 {} (by decide)

/-- C1 counterexample: a derivative with a geometry asset and two image
assets on a manager where the base-color texture resolves (with texture
7) and the normal texture rejects.  The original claim says the
successfully loaded base-color map is kept; the code catches the joined
rejection, replaces all textures by the empty array, and assigns no
texture: the base-color slot ends up absent, not texture 7. -/
theorem derivative_load_successful_texture_not_kept :
    lmTexFails.loadTextureFn imgColorAsset = Except.ok 7 ∧
    ((derivGeoTwoImgs.load lmTexFails).map (fun r =>
        match r.2 with
        | Except.ok d' => (d'.loadedMaterial).map UberMaterial.map
        | Except.error _ => none))
      = some (some none) ∧
    ((derivGeoTwoImgs.load lmTexFails).map (fun r =>
        match r.2 with
        | Except.ok d' => (d'.loadedMaterial).map UberMaterial.map
        | Except.error _ => none))
      ≠ some (some (some 7)) := by
  refine ⟨by rfl, by decide, by decide⟩

/-- C1 (amended): if the geometry load resolves and at least one of the
concurrently issued texture loads rejects, load still resolves with the
derivative, but zero textures are assigned: every material map slot is
absent, the successfully loaded subset included. -/
theorem derivative_load_texture_reject_zero_textures
    (d : Derivative) (lm : LoadingManager) (g : Asset) (geo : Geometry) (e : String)
    (h0 : d.findAsset EAssetType.Model = none)
    (h1 : d.findAsset EAssetType.Geometry = some g)
    (h2 : lm.loadGeometryFn g = Except.ok geo)
    (h3 : allTextures lm (d.findAssets EAssetType.Image) = Except.error e) :
    ∃ d' : Derivative,
      d.load lm = some (LoadRequest.geoReq g ::
          (d.findAssets EAssetType.Image).map LoadRequest.texReq, Except.ok d') ∧
      ∃ m, d'.loadedMaterial = some m ∧ m.allMapsNone := by
  unfold Derivative.load
  simp only [h0, h1, h2, h3]
  refine ⟨_, rfl, _, rfl, ?_⟩
  have hA := assignTextures_empty_allMapsNone (d.findAssets EAssetType.Image)
  rw [if_pos hA.1]
  exact hA

/-- Witness for C1 (amended) at the concrete failing-texture fixture. -/
theorem derivative_load_texture_reject_zero_textures_witness :
    derivGeoTwoImgs.findAsset EAssetType.Model = none ∧
    derivGeoTwoImgs.findAsset EAssetType.Geometry = some geoAsset0 ∧
    lmTexFails.loadGeometryFn geoAsset0 = Except.ok demoGeo ∧
    allTextures lmTexFails (derivGeoTwoImgs.findAssets EAssetType.Image)
      = Except.error "404" ∧
    (∃ d' : Derivative,
      derivGeoTwoImgs.load lmTexFails = some (LoadRequest.geoReq geoAsset0 ::
          (derivGeoTwoImgs.findAssets EAssetType.Image).map LoadRequest.texReq,
        Except.ok d') ∧
      ∃ m, d'.loadedMaterial = some m ∧ m.allMapsNone) :=
  ⟨by decide, by decide, by rfl, by rfl,
   derivative_load_texture_reject_zero_textures derivGeoTwoImgs lmTexFails
     geoAsset0 demoGeo "404" (by decide) (by decide) (by rfl) (by rfl)⟩

/-- C7: in the geometry path with a single image asset of map type
MetallicRoughness whose load resolves with texture t, a successful load
leaves both the metalness map and the roughness map slots referencing
that same texture t. -/
theorem derivative_load_metallic_roughness_shared_texture
    (d : Derivative) (lm : LoadingManager) (g : Asset) (geo : Geometry)
    (a : Asset) (t : Texture)
    (h0 : d.findAsset EAssetType.Model = none)
    (h1 : d.findAsset EAssetType.Geometry = some g)
    (h2 : lm.loadGeometryFn g = Except.ok geo)
    (h3 : d.findAssets EAssetType.Image = [a])
    (h4 : a.mapType = some EMapType.MetallicRoughness)
    (h5 : lm.loadTextureFn a = Except.ok t) :
    ∃ d' log, d.load lm = some (log, Except.ok d') ∧
      ∃ m, d'.loadedMaterial = some m ∧
        m.metalnessMap = some t ∧ m.roughnessMap = some t := by
  have hall : allTextures lm [a] = Except.ok [t] := by
    simp [allTextures, h5]
  have hassign : Derivative.assignTextures [a] [t] {} =
      { metalnessMap := some t, roughnessMap := some t } := by
    simp [Derivative.assignTextures, assignFrom, assignOne, h4]
  unfold Derivative.load
  simp only [h0, h1, h2, h3, hall, hassign]
  refine ⟨_, _, rfl, _, rfl, ?_, ?_⟩ <;> rfl

/-- Witness for C7 at the concrete metallic-roughness fixture. -/
theorem derivative_load_metallic_roughness_shared_texture_witness :
    derivGeoMR.findAsset EAssetType.Model = none ∧
    derivGeoMR.findAsset EAssetType.Geometry = some geoAsset0 ∧
    lmAllOk.loadGeometryFn geoAsset0 = Except.ok demoGeo ∧
    derivGeoMR.findAssets EAssetType.Image = [imgMRAsset] ∧
    imgMRAsset.mapType = some EMapType.MetallicRoughness ∧
    lmAllOk.loadTextureFn imgMRAsset = Except.ok 9 ∧
    (∃ d' log, derivGeoMR.load lmAllOk = some (log, Except.ok d') ∧
      ∃ m, d'.loadedMaterial = some m ∧
        m.metalnessMap = some 9 ∧ m.roughnessMap = some 9) :=
  ⟨by decide, by decide, by rfl, by decide, by decide, by rfl,
   derivative_load_metallic_roughness_shared_texture derivGeoMR lmAllOk
     geoAsset0 demoGeo imgMRAsset 9 (by decide) (by decide) (by rfl)
     (by decide) (by decide) (by rfl)⟩

/-- C2 counterexample: a derivative loaded through the geometry path
(geometry id 5, metallic-roughness texture 9).  The first dispose
releases the geometry and the texture (the latter twice, once per slot);
because dispose clears neither the model reference nor the material
slots, the second dispose issues exactly the same release calls again,
releasing resources the first dispose already released. -/
theorem derivative_dispose_second_call_rereleases :
    derivGeoMR.load lmAllOk = some ([LoadRequest.geoReq geoAsset0,
      LoadRequest.texReq imgMRAsset], Except.ok dLoadedMR) ∧
    (dLoadedMR.dispose).2 = [ReleaseCall.geometryRelease 5,
      ReleaseCall.textureRelease 9, ReleaseCall.textureRelease 9] ∧
    ((dLoadedMR.dispose).1.dispose).2 = [ReleaseCall.geometryRelease 5,
      ReleaseCall.textureRelease 9, ReleaseCall.textureRelease 9] ∧
    ReleaseCall.geometryRelease 5 ∈ (dLoadedMR.dispose).2 ∧
    ReleaseCall.geometryRelease 5 ∈ ((dLoadedMR.dispose).1.dispose).2 := by
  refine ⟨by decide, by decide, by decide, by decide, by decide⟩

/-- C2 (amended): a second dispose does not throw and leaves the
derivative unchanged, but it issues exactly the same release calls as
the first dispose (the model reference is not cleared), so every
resource the first call released receives a second release call;
dispose is idempotent on the derivative state, not on release effects. -/
theorem derivative_dispose_second_call_same_releases (d : Derivative) :
    (d.dispose).1 = d ∧ ((d.dispose).1.dispose).2 = (d.dispose).2 := by
  have h1 : (d.dispose).1 = d := by
    unfold Derivative.dispose
    cases d.model <;> rfl
  exact ⟨h1, by rw [h1]⟩

/-- C3 counterexample: the reachable callback sequence of two load starts
followed by an error on the first item.  At the error callback two loads
are still in flight (zero of two items finished), yet the handler sets
the loading output false. -/
theorem loading_output_false_on_error_with_inflight :
    (runTrace [ItemEvent.itemStart, ItemEvent.itemStart]).loading = true ∧
    (runTrace [ItemEvent.itemStart, ItemEvent.itemStart, ItemEvent.itemError]).loading
      = false ∧
    (runTrace [ItemEvent.itemStart, ItemEvent.itemStart, ItemEvent.itemError]).itemsLoaded
      = 0 ∧
    (runTrace [ItemEvent.itemStart, ItemEvent.itemStart, ItemEvent.itemError]).itemsTotal
      = 2 := by
  refine ⟨by decide, by decide, by decide, by decide⟩

/-- C3 (amended): the loading output becomes true on the first
outstanding load (a start while already loading fires no callback and
leaves it unchanged); it becomes false when the load queue returns to
empty, and on every error callback, regardless of how many other loads
are still in flight. -/
theorem loading_output_transitions (s : ManagerState) :
    ((stepManager s ItemEvent.itemStart).loading
      = if s.isLoading then s.loading else true) ∧
    ((stepManager s ItemEvent.itemEnd).loading
      = if s.itemsLoaded + 1 = s.itemsTotal then false else s.loading) ∧
    ((stepManager s ItemEvent.itemError).loading = false) := by
  refine ⟨?_, ?_, rfl⟩
  · unfold stepManager
    by_cases h : s.isLoading <;> simp [h]
  · unfold stepManager
    by_cases h : s.itemsLoaded + 1 = s.itemsTotal <;> simp [h]

/-- C8: after every add, remove or unit-of-measure change the scene
aggregate bounding box equals the union over the current member set
(never stale) and the change notification is emitted; removing the last
member leaves the empty box, and adding a member to an empty set leaves
exactly that member's own box. -/
theorem cvscene_bounding_box_recomputed (s : SceneState) (e : SceneEvent) (m : ModelComp) :
    ((sceneStep s e).1.modelBoundingBox
      = computeModelBoundingBox (sceneStep s e).1.models) ∧
    ((sceneStep s e).2 = true) ∧
    (s.models = [m] →
      (sceneStep s (SceneEvent.removeModel m.mid)).1.modelBoundingBox = Box3.emptyBox) ∧
    (s.models = [] →
      (sceneStep s (SceneEvent.addModel m)).1.modelBoundingBox = m.box) := by
  refine ⟨?_, ?_, ?_, ?_⟩
  · cases e <;> rfl
  · cases e <;> rfl
  · intro h
    simp [sceneStep, h, computeModelBoundingBox]
  · intro h
    simp [sceneStep, h, computeModelBoundingBox, Box3.emptyBox]
    exact Box3.emptyBox_union m.box

/-- Witness for C8 at concrete one-member and empty scenes. -/
theorem cvscene_bounding_box_recomputed_witness :
    sceneOne.models = [modelComp0] ∧
    (sceneStep sceneOne (SceneEvent.removeModel modelComp0.mid)).1.modelBoundingBox
      = Box3.emptyBox ∧
    sceneEmpty.models = [] ∧
    (sceneStep sceneEmpty (SceneEvent.addModel modelComp0)).1.modelBoundingBox
      = modelComp0.box ∧
    (sceneStep sceneOne SceneEvent.unitsChanged).2 = true :=
  ⟨rfl,
   (cvscene_bounding_box_recomputed sceneOne
     (SceneEvent.removeModel modelComp0.mid) modelComp0).2.2.1 rfl,
   rfl,
   (cvscene_bounding_box_recomputed sceneEmpty
     (SceneEvent.addModel modelComp0) modelComp0).2.2.2 rfl,
   (cvscene_bounding_box_recomputed sceneOne SceneEvent.unitsChanged modelComp0).2.1⟩

/-- C9: a persisted enumeration string naming no member of its
enumeration is mapped to index 0 of that enumeration on read: usage to
Web, quality to Thumb, reader position to 0 (Overlay), scene units to 0,
rather than rejected or left undefined. -/
theorem unknown_enum_string_maps_to_index_zero (s : String) :
    (s ∉ usageNames → EDerivativeUsage.fromName s = EDerivativeUsage.Web) ∧
    (s ∉ qualityNames → EDerivativeQuality.fromName s = EDerivativeQuality.Thumb) ∧
    (s ∉ readerPositionNames → ∀ v u,
      (CVReader.fromData (some { visible := v, position := some s, url := u })).position
        = 0) ∧
    (s ∉ unitNames → CVScene.unitsFromDocument s = 0) := by
  refine ⟨?_, ?_, ?_, ?_⟩
  · intro h
    simp [EDerivativeUsage.fromName, enumIndexOf_eq_none usageNames s h, jsOrNat,
      EDerivativeUsage.ofIndex]
  · intro h
    simp [EDerivativeQuality.fromName, enumIndexOf_eq_none qualityNames s h, jsOrNat,
      EDerivativeQuality.ofIndex]
  · intro h v u
    simp [CVReader.fromData, enumIndexOf_eq_none readerPositionNames s h, jsOrNat]
  · intro h
    simp [CVScene.unitsFromDocument, enumIndexOf_eq_none unitNames s h, jsOrNat]

/-- Witness for C9 at the concrete unknown string "garbage". -/
theorem unknown_enum_string_maps_to_index_zero_witness :
    ("garbage" ∉ usageNames) ∧ ("garbage" ∉ qualityNames) ∧
    ("garbage" ∉ readerPositionNames) ∧ ("garbage" ∉ unitNames) ∧
    EDerivativeUsage.fromName "garbage" = EDerivativeUsage.Web ∧
    EDerivativeQuality.fromName "garbage" = EDerivativeQuality.Thumb ∧
    (CVReader.fromData (some { visible := some true, position := some "garbage", url := some "doc.html" })).position = 0 ∧
    CVScene.unitsFromDocument "garbage" = 0 :=
  ⟨by decide, by decide, by decide, by decide,
   (unknown_enum_string_maps_to_index_zero "garbage").1 (by decide),
   (unknown_enum_string_maps_to_index_zero "garbage").2.1 (by decide),
   (unknown_enum_string_maps_to_index_zero "garbage").2.2.1 (by decide)
     (some true) (some "doc.html"),
   (unknown_enum_string_maps_to_index_zero "garbage").2.2.2 (by decide)⟩

end Voyager
